import Mathlib

/-!
Shallow embedding of the filtering-log rule/button derivation logic of the
AdGuard browser extension fragment: `getRulesData`, `getRuleFilterName` and
`renderControlButtons` from `RequestInfo.tsx`, and the badge computation of
`IconsApi.updateTabIcon`.

JavaScript truthiness of optional strings (absent or empty both falsy) is
modelled by `truthyText`; optional fields are `Option`s; mutation of the
`result` record is modelled by explicit state passing.
-/

namespace AdguardSpec

/-- Derived display status of a filtering event. The deriving function
`getStatusMode` lives in a module outside this fragment; the event model
carries the derived status directly. -/
inductive StatusMode where
  | REGULAR
  | MODIFIED
  | BLOCKED
  | ALLOWED
  deriving Repr, DecidableEq

/-- Content type of the intercepted request (`ContentType` from tswebextension,
restricted to the members this fragment mentions plus a catch-all). -/
inductive RequestType where
  | Image
  | Document
  | Subdocument
  | Script
  | Stylesheet
  | XmlHttpRequest
  | Media
  | Font
  | WebSocket
  | Cookie
  | Other
  deriving Repr, DecidableEq

/-- Tri-state flag for a rule the operator just added in this session. -/
inductive AddedRuleState where
  | None
  | Block
  | Unblock
  deriving Repr, DecidableEq

/-- Kinds of control buttons the resolver can emit (the keys of BUTTON_MAP). -/
inductive ButtonKind where
  | Block
  | Unblock
  | RemoveAllowlist
  | RemoveUserFilter
  | RemoveAddedBlock
  | RemoveAddedUnblock
  | Preview
  deriving Repr, DecidableEq

/-- One applied-rule descriptor (`FilteringEventRuleData`). Optional string
fields are `Option String`; absent booleans are `false`. -/
structure FilteringEventRuleData where
  filterId : Nat
  appliedRuleText : Option String
  originalRuleText : Option String
  allowlistRule : Bool
  documentLevelRule : Bool
  isStealthModeRule : Bool
  cookieRule : Bool
  deriving Repr, DecidableEq

/-- One filtering-log event (`FilteringLogEvent`), restricted to the fields the
rule/button derivation reads. `statusMode` stands for the value of
`getStatusMode(event)`, whose defining module is outside this fragment. -/
structure FilteringLogEvent where
  requestRule : Option FilteringEventRuleData
  replaceRules : Option (List FilteringEventRuleData)
  stealthAllowlistRules : Option (List FilteringEventRuleData)
  requestType : Option RequestType
  element : Option String
  script : Bool
  cookieName : Option String
  statusMode : StatusMode
  deriving Repr, DecidableEq

/-- Metadata of one filter: its identifier and display name. -/
structure FilterMetadata where
  filterId : Nat
  name : String
  deriving Repr, DecidableEq

/-- Reserved identifier of the user-rules filter (`AntiBannerFiltersId.UserFilterId`).
Modelled from the spec: the constants module is outside this fragment; only the
value's distinctness from the allowlist identifier matters. -/
def UserFilterId : Nat := 0

/-- Reserved identifier of the allowlist filter (`AntiBannerFiltersId.AllowlistFilterId`).
Modelled from the spec: the constants module is outside this fragment. -/
def AllowlistFilterId : Nat := 100

/-- Modelled from the spec: `getFilterName` from `../utils` is outside this
fragment; the spec describes `FilterMetadata` as a mapping from filter
identifier to display name, with lookup failure yielding null. -/
def getFilterName (filterId : Nat) (filtersMetadata : Option (List FilterMetadata)) :
    Option String :=
  match filtersMetadata with
  | none => none
  | some l => (l.find? fun m => m.filterId == filterId).map (fun m => m.name)

/-- JS truthiness of an optional string: keeps the string only when it is
present and non-empty. -/
def truthyText : Option String → Option String
  | some s => if s.isEmpty then none else some s
  | none => none

/-- Result record accumulated by `getRulesData`. -/
structure RulesData where
  appliedRuleTexts : List String
  originalRuleTexts : List String
  deriving Repr, DecidableEq

/-- Embedding of the inner `addRule` of `getRulesData`: pushes the applied and
original texts of one rule descriptor, suffixing " (filterName)" when a truthy
filter name is supplied; falsy texts contribute nothing. -/
def addRule (rule : FilteringEventRuleData) (filterName : Option String)
    (result : RulesData) : RulesData :=
  let result1 :=
    match rule.appliedRuleText with
    | some appliedRuleText =>
        if appliedRuleText.isEmpty then result
        else
          { result with
            appliedRuleTexts := result.appliedRuleTexts ++
              [(match filterName with
                | some f =>
                    if f.isEmpty then appliedRuleText
                    else appliedRuleText ++ " (" ++ f ++ ")"
                | none => appliedRuleText)] }
    | none => result
  match rule.originalRuleText with
  | some originalRuleText =>
      if originalRuleText.isEmpty then result1
      else
        { result1 with
          originalRuleTexts := result1.originalRuleTexts ++
            [(match filterName with
              | some f =>
                  if f.isEmpty then originalRuleText
                  else originalRuleText ++ " (" ++ f ++ ")"
              | none => originalRuleText)] }
  | none => result1

/-- Resolved filter name used inside `addRuleGroup` for one rule: the metadata
lookup guarded by the metadata's presence, exactly as the source writes
`filtersMetadata ? getFilterName(rule.filterId, filtersMetadata) : null`. -/
def resolvedFilterName (filtersMetadata : Option (List FilterMetadata))
    (rule : FilteringEventRuleData) : Option String :=
  match filtersMetadata with
  | some _ => getFilterName rule.filterId filtersMetadata
  | none => none

/-- Embedding of the inner `addRuleGroup` of `getRulesData`: a single-element
group is added without a filter name; otherwise every rule is added with the
name resolved from the metadata (null metadata resolves nothing). -/
def addRuleGroup (filtersMetadata : Option (List FilterMetadata))
    (rules : List FilteringEventRuleData) (result : RulesData) : RulesData :=
  match rules with
  | [rule0] => addRule rule0 none result
  | _ =>
      rules.foldl
        (fun acc rule => addRule rule (resolvedFilterName filtersMetadata rule) acc)
        result

/-- Embedding of `getRulesData` from `RequestInfo.tsx`: replace rules, then
stealth-allowlist rules (each by presence), then the single request rule, with
the reserved document-level allowlist rule yielding an empty result. -/
def getRulesData (event : FilteringLogEvent)
    (filtersMetadata : Option (List FilterMetadata)) : RulesData :=
  let result : RulesData := { appliedRuleTexts := [], originalRuleTexts := [] }
  match event.replaceRules with
  | some rules => addRuleGroup filtersMetadata rules result
  | none =>
      match event.stealthAllowlistRules with
      | some rules => addRuleGroup filtersMetadata rules result
      | none =>
          match event.requestRule with
          | none => result
          | some requestRule =>
              if requestRule.allowlistRule && requestRule.documentLevelRule
                  && (requestRule.filterId == AllowlistFilterId) then
                result
              else
                addRule requestRule none result

/-- Embedding of `getRuleFilterName` from `RequestInfo.tsx`. -/
def getRuleFilterName (selectedEvent : FilteringLogEvent)
    (filtersMetadata : Option (List FilterMetadata)) : Option String :=
  match selectedEvent.requestRule with
  | some requestRule => getFilterName requestRule.filterId filtersMetadata
  | none =>
      match selectedEvent.replaceRules with
      | some [r] => getFilterName r.filterId filtersMetadata
      | _ =>
          match selectedEvent.stealthAllowlistRules with
          | some [r] => getFilterName r.filterId filtersMetadata
          | _ => none

/-- The previewable content types listed in `renderControlButtons`. -/
def previewableTypes : List RequestType :=
  [RequestType.Image, RequestType.Document, RequestType.Subdocument,
   RequestType.Script, RequestType.Stylesheet]

/-- Embedding of the `showPreviewButton` flag of `renderControlButtons`. -/
def showPreviewButton (event : FilteringLogEvent) : Bool :=
  (match event.requestType with
   | some t => previewableTypes.contains t
   | none => false)
  && (truthyText event.element).isNone
  && !event.script
  && (truthyText event.cookieName).isNone
  && !(event.statusMode == StatusMode.BLOCKED)

/-- Embedding of `renderControlButtons` from `RequestInfo.tsx` as the sequence
of button kinds it renders. -/
def renderControlButtons (addedRuleState : AddedRuleState)
    (event : FilteringLogEvent) : List ButtonKind :=
  let preview : List ButtonKind :=
    if showPreviewButton event then [ButtonKind.Preview] else []
  if addedRuleState == AddedRuleState.Block then
    [ButtonKind.RemoveAddedBlock]
  else if addedRuleState == AddedRuleState.Unblock then
    [ButtonKind.RemoveAddedUnblock]
  else
    match event.requestRule with
    | none => [ButtonKind.Block] ++ preview
    | some requestRule =>
        if requestRule.filterId == UserFilterId then
          let base :=
            if requestRule.isStealthModeRule then ButtonKind.Unblock
            else ButtonKind.RemoveUserFilter
          if requestRule.allowlistRule then
            [ButtonKind.Block, base] ++ preview
          else
            [base] ++ preview
        else if requestRule.filterId == AllowlistFilterId then
          [ButtonKind.RemoveAllowlist] ++ preview
        else if !requestRule.allowlistRule then
          [ButtonKind.Unblock] ++ preview
        else
          [ButtonKind.Block] ++ preview

/-- Promo notification data relevant to `IconsApi.updateTabIcon`: optional
badge text and badge background colour, and whether gray/green replacement
icons are present. -/
structure PromoNotification where
  badgeText : Option String
  badgeBgColor : Option String
  iconGray : Bool
  iconGreen : Bool
  deriving Repr, DecidableEq

/-- Which toolbar icon `updateTabIcon` selects. -/
inductive TabIcon where
  | warning
  | off
  | on
  | promoGray
  | promoGreen
  deriving Repr, DecidableEq

/-- Observable outcome of `IconsApi.updateTabIcon`: the chosen icon, the badge
text and colour, and whether the badge-setting browser calls were made. -/
structure TabIconUpdate where
  icon : TabIcon
  badge : String
  badgeColor : String
  setBadgeTextCalled : Bool
  setBadgeBackgroundColorCalled : Bool
  deriving Repr, DecidableEq

/-- Embedding of `IconsApi.updateTabIcon` from the icons module. External reads
become parameters: `disableShowPageStats` is the stored setting,
`filterLimitsExceeded` is `RulesLimitsService.areFilterLimitsExceeded()`, and
`promo` is the current promo notification (none when there is none). -/
def updateTabIcon (documentAllowlisted applicationFilteringDisabled : Bool)
    (totalBlockedTab : Nat) (disableShowPageStats : Bool)
    (filterLimitsExceeded : Bool) (promo : Option PromoNotification) :
    TabIconUpdate :=
  let disabled := documentAllowlisted || applicationFilteringDisabled
  let blocked : Nat :=
    if !disabled && !disableShowPageStats then totalBlockedTab else 0
  let icon : TabIcon :=
    if filterLimitsExceeded then TabIcon.warning
    else if disabled then TabIcon.off
    else TabIcon.on
  let badge : String :=
    if blocked == 0 then ""
    else if blocked > 99 then "∞"
    else toString blocked
  let badgeColor : String := "#555"
  match promo with
  | none =>
      { icon := icon, badge := badge, badgeColor := badgeColor,
        setBadgeTextCalled := !badge.isEmpty,
        setBadgeBackgroundColorCalled := !badge.isEmpty }
  | some n =>
      let badge2 :=
        match truthyText n.badgeText with
        | some t => t
        | none => badge
      let badgeColor2 :=
        match truthyText n.badgeBgColor with
        | some c => c
        | none => badgeColor
      let icon2 :=
        if disabled then
          if n.iconGray then TabIcon.promoGray else icon
        else if n.iconGreen then TabIcon.promoGreen else icon
      { icon := icon2, badge := badge2, badgeColor := badgeColor2,
        setBadgeTextCalled := !badge2.isEmpty,
        setBadgeBackgroundColorCalled := !badge2.isEmpty }

/-- Specification-side annotation: suffix " (filterName)" when the name is
truthy, the bare text otherwise. -/
def annotate (text : String) (filterName : Option String) : String :=
  match truthyText filterName with
  | some f => text ++ " (" ++ f ++ ")"
  | none => text

/-- Specification-side applied texts of one processed rule group. -/
def groupAppliedTexts (filtersMetadata : Option (List FilterMetadata))
    (rules : List FilteringEventRuleData) : List String :=
  match rules with
  | [r] => (truthyText r.appliedRuleText).toList
  | _ =>
      rules.filterMap fun r =>
        (truthyText r.appliedRuleText).map fun t =>
          annotate t (getFilterName r.filterId filtersMetadata)

/-- Specification-side original texts of one processed rule group. -/
def groupOriginalTexts (filtersMetadata : Option (List FilterMetadata))
    (rules : List FilteringEventRuleData) : List String :=
  match rules with
  | [r] => (truthyText r.originalRuleText).toList
  | _ =>
      rules.filterMap fun r =>
        (truthyText r.originalRuleText).map fun t =>
          annotate t (getFilterName r.filterId filtersMetadata)

/-- Sample metadata mapping filter 2 and filter 3 to display names. -/
def sampleMetadata : List FilterMetadata :=
  [{ filterId := 2, name := "Tracking Protection" },
   { filterId := 3, name := "Annoyances" }]

/-- Stealth-allowlist rule used for concrete evaluations. -/
def c1StealthRule : FilteringEventRuleData :=
  { filterId := 2, appliedRuleText := some "@@||tracker.example^$stealth",
    originalRuleText := none, allowlistRule := true, documentLevelRule := false,
    isStealthModeRule := true, cookieRule := false }

/-- Event carrying a present-but-empty replaceRules array next to a non-empty
stealthAllowlistRules array. -/
def c1Event : FilteringLogEvent :=
  { requestRule := none, replaceRules := some [],
    stealthAllowlistRules := some [c1StealthRule],
    requestType := none, element := none, script := false, cookieName := none,
    statusMode := StatusMode.REGULAR }

/-- Event whose only group is a one-element stealth-allowlist array. -/
def wStealthEvent : FilteringLogEvent :=
  { requestRule := none, replaceRules := none,
    stealthAllowlistRules := some [c1StealthRule],
    requestType := none, element := none, script := false, cookieName := none,
    statusMode := StatusMode.REGULAR }

/-- Reserved document-level allowlist rule carrying a truthy applied text. -/
def c2AllowRule : FilteringEventRuleData :=
  { filterId := AllowlistFilterId, appliedRuleText := some "@@||example.com^$document",
    originalRuleText := none, allowlistRule := true, documentLevelRule := true,
    isStealthModeRule := false, cookieRule := false }

/-- Event whose single request rule is the reserved document-level allowlist rule. -/
def c2Event : FilteringLogEvent :=
  { requestRule := some c2AllowRule, replaceRules := none,
    stealthAllowlistRules := none,
    requestType := some RequestType.Document, element := none, script := false,
    cookieName := none, statusMode := StatusMode.ALLOWED }

/-- Ordinary blocking rule with a truthy applied text and no original text. -/
def w2Rule : FilteringEventRuleData :=
  { filterId := 1, appliedRuleText := some "||ads.example^",
    originalRuleText := none, allowlistRule := false, documentLevelRule := false,
    isStealthModeRule := false, cookieRule := false }

/-- Event whose only rule information is `w2Rule`. -/
def w2Event : FilteringLogEvent :=
  { requestRule := some w2Rule, replaceRules := none, stealthAllowlistRules := none,
    requestType := some RequestType.Image, element := none, script := false,
    cookieName := none, statusMode := StatusMode.BLOCKED }

/-- Reserved document-level allowlist rule used for the C3 instance. -/
def w3Rule : FilteringEventRuleData :=
  { filterId := AllowlistFilterId, appliedRuleText := some "@@||site.example^$document",
    originalRuleText := some "@@site.example", allowlistRule := true,
    documentLevelRule := true, isStealthModeRule := false, cookieRule := false }

/-- Event whose single request rule is `w3Rule`. -/
def w3Event : FilteringLogEvent :=
  { requestRule := some w3Rule, replaceRules := none, stealthAllowlistRules := none,
    requestType := some RequestType.Document, element := none, script := false,
    cookieName := none, statusMode := StatusMode.ALLOWED }

/-- Replace rule from filter 2, converted from an original text. -/
def w7Rule1 : FilteringEventRuleData :=
  { filterId := 2, appliedRuleText := some "||a.example^$replace=x",
    originalRuleText := some "||a.example^$replace-orig",
    allowlistRule := false, documentLevelRule := false,
    isStealthModeRule := false, cookieRule := false }

/-- Replace rule from an unknown filter 5. -/
def w7Rule2 : FilteringEventRuleData :=
  { filterId := 5, appliedRuleText := some "||b.example^$replace=y",
    originalRuleText := none, allowlistRule := false, documentLevelRule := false,
    isStealthModeRule := false, cookieRule := false }

/-- User-filter allowlist rule that is not a stealth-mode rule. -/
def w5Rule : FilteringEventRuleData :=
  { filterId := UserFilterId, appliedRuleText := some "@@||allow.example^",
    originalRuleText := none, allowlistRule := true, documentLevelRule := false,
    isStealthModeRule := false, cookieRule := false }

/-- Preview-eligible event carrying `w5Rule`. -/
def w5Event : FilteringLogEvent :=
  { requestRule := some w5Rule, replaceRules := none, stealthAllowlistRules := none,
    requestType := some RequestType.Image, element := none, script := false,
    cookieName := none, statusMode := StatusMode.ALLOWED }

/-- User-filter allowlist rule that is also a stealth-mode rule. -/
def w5StealthRule : FilteringEventRuleData :=
  { filterId := UserFilterId, appliedRuleText := some "@@||allow.example^$stealth",
    originalRuleText := none, allowlistRule := true, documentLevelRule := false,
    isStealthModeRule := true, cookieRule := false }

/-- Preview-eligible event carrying `w5StealthRule`. -/
def w5StealthEvent : FilteringLogEvent :=
  { requestRule := some w5StealthRule, replaceRules := none,
    stealthAllowlistRules := none,
    requestType := some RequestType.Image, element := none, script := false,
    cookieName := none, statusMode := StatusMode.ALLOWED }

/-- Preview-eligible event with no request rule at all. -/
def w6Event : FilteringLogEvent :=
  { requestRule := none, replaceRules := none, stealthAllowlistRules := none,
    requestType := some RequestType.Image, element := none, script := false,
    cookieName := none, statusMode := StatusMode.REGULAR }

/-- Rule descriptor with neither text field set. -/
def w8Rule : FilteringEventRuleData :=
  { filterId := 7, appliedRuleText := none, originalRuleText := none,
    allowlistRule := false, documentLevelRule := false,
    isStealthModeRule := false, cookieRule := false }

/-- Event with no rule information and a non-previewable request type. -/
def w8Event : FilteringLogEvent :=
  { requestRule := none, replaceRules := none, stealthAllowlistRules := none,
    requestType := none, element := none, script := false, cookieName := none,
    statusMode := StatusMode.REGULAR }

/-- Event whose only group is a one-element replaceRules array from filter 2. -/
def w10Event : FilteringLogEvent :=
  { requestRule := none, replaceRules := some [w7Rule1],
    stealthAllowlistRules := none,
    requestType := none, element := none, script := false, cookieName := none,
    statusMode := StatusMode.REGULAR }

lemma resolvedFilterName_eq (filtersMetadata : Option (List FilterMetadata))
    (rule : FilteringEventRuleData) :
    resolvedFilterName filtersMetadata rule =
      getFilterName rule.filterId filtersMetadata := by
  cases filtersMetadata <;> rfl

lemma addRule_eq (rule : FilteringEventRuleData) (filterName : Option String)
    (result : RulesData) :
    addRule rule filterName result =
      { appliedRuleTexts := result.appliedRuleTexts ++
          ((truthyText rule.appliedRuleText).map (fun t => annotate t filterName)).toList,
        originalRuleTexts := result.originalRuleTexts ++
          ((truthyText rule.originalRuleText).map (fun t => annotate t filterName)).toList } := by
  rcases rule with ⟨fid, apT, orT, a, d, s, c⟩
  rcases apT with _ | ta <;> rcases orT with _ | tb <;>
    rcases filterName with _ | fn <;>
    simp only [addRule, truthyText, annotate] <;>
    first
      | (split_ifs <;> simp_all [truthyText, annotate])
      | simp_all [truthyText, annotate]

lemma foldl_addRule (filtersMetadata : Option (List FilterMetadata))
    (rules : List FilteringEventRuleData) (acc : RulesData) :
    rules.foldl (fun a r => addRule r (resolvedFilterName filtersMetadata r) a) acc =
      { appliedRuleTexts := acc.appliedRuleTexts ++
          rules.filterMap (fun r => (truthyText r.appliedRuleText).map
            (fun t => annotate t (resolvedFilterName filtersMetadata r))),
        originalRuleTexts := acc.originalRuleTexts ++
          rules.filterMap (fun r => (truthyText r.originalRuleText).map
            (fun t => annotate t (resolvedFilterName filtersMetadata r))) } := by
  induction rules generalizing acc with
  | nil => simp
  | cons r tl ih =>
      rw [List.foldl_cons, ih, addRule_eq]
      simp only [List.filterMap_cons]
      cases h1 : truthyText r.appliedRuleText <;>
        cases h2 : truthyText r.originalRuleText <;>
        simp [h1, h2]

lemma addRuleGroup_eq (filtersMetadata : Option (List FilterMetadata))
    (rules : List FilteringEventRuleData) (result : RulesData) :
    addRuleGroup filtersMetadata rules result =
      { appliedRuleTexts := result.appliedRuleTexts ++ groupAppliedTexts filtersMetadata rules,
        originalRuleTexts := result.originalRuleTexts ++ groupOriginalTexts filtersMetadata rules } := by
  match rules with
  | [] =>
      simp [addRuleGroup, groupAppliedTexts, groupOriginalTexts]
  | [r] =>
      have h : addRuleGroup filtersMetadata [r] result = addRule r none result := rfl
      rw [h, addRule_eq]
      have ha : ∀ o : Option String, o.map (fun t => annotate t none) = o := by
        intro o; cases o <;> simp [annotate, truthyText]
      simp [groupAppliedTexts, groupOriginalTexts, ha]
  | r1 :: r2 :: tl =>
      have h : addRuleGroup filtersMetadata (r1 :: r2 :: tl) result =
          (r1 :: r2 :: tl).foldl
            (fun acc rule => addRule rule (resolvedFilterName filtersMetadata rule) acc)
            result := rfl
      rw [h, foldl_addRule]
      have hga : groupAppliedTexts filtersMetadata (r1 :: r2 :: tl) =
          (r1 :: r2 :: tl).filterMap fun r =>
            (truthyText r.appliedRuleText).map fun t =>
              annotate t (getFilterName r.filterId filtersMetadata) := rfl
      have hgo : groupOriginalTexts filtersMetadata (r1 :: r2 :: tl) =
          (r1 :: r2 :: tl).filterMap fun r =>
            (truthyText r.originalRuleText).map fun t =>
              annotate t (getFilterName r.filterId filtersMetadata) := rfl
      rw [hga, hgo]
      simp [resolvedFilterName_eq]

lemma map_annotate_none (o : Option String) :
    o.map (fun t => annotate t none) = o := by
  cases o <;> simp [annotate, truthyText]

lemma addRule_none_eq (r : FilteringEventRuleData) (result : RulesData) :
    addRule r none result =
      { appliedRuleTexts := result.appliedRuleTexts ++ (truthyText r.appliedRuleText).toList,
        originalRuleTexts := result.originalRuleTexts ++ (truthyText r.originalRuleText).toList } := by
  rw [addRule_eq, map_annotate_none, map_annotate_none]

lemma getRulesData_replace (e : FilteringLogEvent) (md : Option (List FilterMetadata))
    (l : List FilteringEventRuleData) (h : e.replaceRules = some l) :
    getRulesData e md =
      { appliedRuleTexts := groupAppliedTexts md l,
        originalRuleTexts := groupOriginalTexts md l } := by
  rcases e with ⟨rr, rep, ste, ty, el, sc, ck, st⟩
  simp only at h
  subst h
  simp [getRulesData, addRuleGroup_eq]

lemma getRulesData_stealth (e : FilteringLogEvent) (md : Option (List FilterMetadata))
    (l : List FilteringEventRuleData)
    (h1 : e.replaceRules = none) (h2 : e.stealthAllowlistRules = some l) :
    getRulesData e md =
      { appliedRuleTexts := groupAppliedTexts md l,
        originalRuleTexts := groupOriginalTexts md l } := by
  rcases e with ⟨rr, rep, ste, ty, el, sc, ck, st⟩
  simp only at h1 h2
  subst h1; subst h2
  simp [getRulesData, addRuleGroup_eq]

lemma getRulesData_noRule (e : FilteringLogEvent) (md : Option (List FilterMetadata))
    (h1 : e.replaceRules = none) (h2 : e.stealthAllowlistRules = none)
    (h3 : e.requestRule = none) :
    getRulesData e md = { appliedRuleTexts := [], originalRuleTexts := [] } := by
  rcases e with ⟨rr, rep, ste, ty, el, sc, ck, st⟩
  simp only at h1 h2 h3
  subst h1; subst h2; subst h3
  simp [getRulesData]

lemma getRulesData_carveout (e : FilteringLogEvent) (r : FilteringEventRuleData)
    (md : Option (List FilterMetadata))
    (h1 : e.replaceRules = none) (h2 : e.stealthAllowlistRules = none)
    (h3 : e.requestRule = some r)
    (h4 : r.allowlistRule = true) (h5 : r.documentLevelRule = true)
    (h6 : r.filterId = AllowlistFilterId) :
    getRulesData e md = { appliedRuleTexts := [], originalRuleTexts := [] } := by
  rcases e with ⟨rr, rep, ste, ty, el, sc, ck, st⟩
  simp only at h1 h2 h3
  subst h1; subst h2; subst h3
  simp [getRulesData, h4, h5, h6]

lemma getRulesData_requestRule (e : FilteringLogEvent) (r : FilteringEventRuleData)
    (md : Option (List FilterMetadata))
    (h1 : e.replaceRules = none) (h2 : e.stealthAllowlistRules = none)
    (h3 : e.requestRule = some r)
    (h5 : ¬ (r.allowlistRule = true ∧ r.documentLevelRule = true ∧
             r.filterId = AllowlistFilterId)) :
    getRulesData e md =
      { appliedRuleTexts := (truthyText r.appliedRuleText).toList,
        originalRuleTexts := (truthyText r.originalRuleText).toList } := by
  rcases e with ⟨rr, rep, ste, ty, el, sc, ck, st⟩
  simp only at h1 h2 h3
  subst h1; subst h2; subst h3
  have hcond : (r.allowlistRule && r.documentLevelRule
      && (r.filterId == AllowlistFilterId)) = false := by
    by_contra hne
    have hb : (r.allowlistRule && r.documentLevelRule
        && (r.filterId == AllowlistFilterId)) = true := by
      revert hne
      cases r.allowlistRule && r.documentLevelRule && (r.filterId == AllowlistFilterId) <;>
        simp
    simp only [Bool.and_eq_true, beq_iff_eq] at hb
    exact h5 ⟨hb.1.1, hb.1.2, hb.2⟩
  simp [getRulesData, hcond, addRule_none_eq]

lemma groupAppliedTexts_multi (md : Option (List FilterMetadata))
    (rules : List FilteringEventRuleData) (h : 1 < rules.length) :
    groupAppliedTexts md rules =
      rules.filterMap (fun r => (truthyText r.appliedRuleText).map
        (fun t => annotate t (getFilterName r.filterId md))) := by
  match rules with
  | [] => simp at h
  | [r] => simp at h
  | r1 :: r2 :: tl => rfl

lemma groupOriginalTexts_multi (md : Option (List FilterMetadata))
    (rules : List FilteringEventRuleData) (h : 1 < rules.length) :
    groupOriginalTexts md rules =
      rules.filterMap (fun r => (truthyText r.originalRuleText).map
        (fun t => annotate t (getFilterName r.filterId md))) := by
  match rules with
  | [] => simp at h
  | [r] => simp at h
  | r1 :: r2 :: tl => rfl

/-- C1 counterexample: on an event whose replaceRules array is present but
empty while stealthAllowlistRules is non-empty, the claimed precedence (keyed
on non-emptiness) would process the stealth group and return its text, but
getRulesData processes the empty replace group and returns nothing. -/
theorem C1_counterexample :
    (getRulesData c1Event none).appliedRuleTexts = [] ∧
    ¬ (getRulesData c1Event none).appliedRuleTexts
        = ["@@||tracker.example^$stealth"] := by
  decide

/-- C1 (amended): getRulesData consults the three groups in fixed precedence
keyed on presence rather than non-emptiness: a present replaceRules array is
processed alone (even when empty), else a present stealthAllowlistRules array
is processed alone, else the single requestRule is processed alone, the
reserved document-level allowlist rule yielding an empty result; texts from
different groups are never merged into one result. -/
theorem C1_group_precedence_by_presence (e : FilteringLogEvent)
    (md : Option (List FilterMetadata)) :
    (∀ l, e.replaceRules = some l →
       getRulesData e md =
         { appliedRuleTexts := groupAppliedTexts md l,
           originalRuleTexts := groupOriginalTexts md l }) ∧
    (e.replaceRules = none → ∀ l, e.stealthAllowlistRules = some l →
       getRulesData e md =
         { appliedRuleTexts := groupAppliedTexts md l,
           originalRuleTexts := groupOriginalTexts md l }) ∧
    (e.replaceRules = none → e.stealthAllowlistRules = none →
       e.requestRule = none →
       getRulesData e md = { appliedRuleTexts := [], originalRuleTexts := [] }) ∧
    (∀ r, e.replaceRules = none → e.stealthAllowlistRules = none →
       e.requestRule = some r →
       getRulesData e md =
         (if r.allowlistRule = true ∧ r.documentLevelRule = true ∧
             r.filterId = AllowlistFilterId
          then { appliedRuleTexts := [], originalRuleTexts := [] }
          else { appliedRuleTexts := (truthyText r.appliedRuleText).toList,
                 originalRuleTexts := (truthyText r.originalRuleText).toList })) := by
  refine ⟨?_, ?_, ?_, ?_⟩
  · intro l h
    exact getRulesData_replace e md l h
  · intro h1 l h2
    exact getRulesData_stealth e md l h1 h2
  · intro h1 h2 h3
    exact getRulesData_noRule e md h1 h2 h3
  · intro r h1 h2 h3
    by_cases hc : r.allowlistRule = true ∧ r.documentLevelRule = true ∧
        r.filterId = AllowlistFilterId
    · rw [if_pos hc]
      exact getRulesData_carveout e r md h1 h2 h3 hc.1 hc.2.1 hc.2.2
    · rw [if_neg hc]
      exact getRulesData_requestRule e r md h1 h2 h3 hc

/-- C1 witness: the amended precedence evaluated on the counterexample event
(present empty replace group wins) and on a stealth-only event. -/
theorem C1_witness :
    getRulesData c1Event none = { appliedRuleTexts := [], originalRuleTexts := [] } ∧
    getRulesData wStealthEvent none =
      { appliedRuleTexts := ["@@||tracker.example^$stealth"],
        originalRuleTexts := [] } := by
  constructor
  · exact (C1_group_precedence_by_presence c1Event none).1 [] rfl
  · have h := (C1_group_precedence_by_presence wStealthEvent none).2.1 rfl
      [c1StealthRule] rfl
    rw [h]
    decide

/-- C2 counterexample: an event with both group arrays absent whose single
request rule has a truthy applied text but is the reserved document-level
allowlist rule; the claim predicts the applied text is returned, getRulesData
returns nothing. -/
theorem C2_counterexample :
    (getRulesData c2Event none).appliedRuleTexts = [] ∧
    ¬ (getRulesData c2Event none).appliedRuleTexts
        = ["@@||example.com^$document"] := by
  decide

/-- C2 (amended): for every event whose replaceRules and stealthAllowlistRules
are absent and whose single requestRule has a non-empty appliedRuleText and is
not the reserved document-level allowlist rule, getRulesData returns that
appliedRuleText unannotated in appliedRuleTexts, and originalRuleTexts is
empty exactly when the rule has no truthy originalRuleText. -/
theorem C2_single_request_rule_text (e : FilteringLogEvent)
    (r : FilteringEventRuleData) (t : String) (md : Option (List FilterMetadata))
    (h1 : e.replaceRules = none) (h2 : e.stealthAllowlistRules = none)
    (h3 : e.requestRule = some r)
    (h4 : truthyText r.appliedRuleText = some t)
    (h5 : ¬ (r.allowlistRule = true ∧ r.documentLevelRule = true ∧
             r.filterId = AllowlistFilterId)) :
    (getRulesData e md).appliedRuleTexts = [t] ∧
    ((getRulesData e md).originalRuleTexts = [] ↔
       truthyText r.originalRuleText = none) ∧
    (∀ s, truthyText r.originalRuleText = some s →
       (getRulesData e md).originalRuleTexts = [s]) := by
  have h := getRulesData_requestRule e r md h1 h2 h3 h5
  rw [h]
  refine ⟨by simp [h4], ?_, ?_⟩
  · cases ho : truthyText r.originalRuleText <;> simp [ho]
  · intro s hs
    simp [hs]

/-- C2 witness: a single ordinary blocking rule yields its applied text bare
and no original texts. -/
theorem C2_witness :
    (getRulesData w2Event none).appliedRuleTexts = ["||ads.example^"] ∧
    (getRulesData w2Event none).originalRuleTexts = [] := by
  have h := C2_single_request_rule_text w2Event w2Rule "||ads.example^" none
    rfl rfl rfl (by decide) (by decide)
  exact ⟨h.1, h.2.1.mpr (by decide)⟩

/-- C3: for every event without replaceRules and stealthAllowlistRules whose
requestRule is an allowlist, document-level rule from the reserved allowlist
filter, getRulesData returns both text sequences empty. -/
theorem C3_reserved_allowlist_rule_empty (e : FilteringLogEvent)
    (r : FilteringEventRuleData) (md : Option (List FilterMetadata))
    (h1 : e.replaceRules = none) (h2 : e.stealthAllowlistRules = none)
    (h3 : e.requestRule = some r) (h4 : r.allowlistRule = true)
    (h5 : r.documentLevelRule = true) (h6 : r.filterId = AllowlistFilterId) :
    getRulesData e md = { appliedRuleTexts := [], originalRuleTexts := [] } :=
  getRulesData_carveout e r md h1 h2 h3 h4 h5 h6

/-- C3 witness: the reserved document-level allowlist rule evaluated concretely. -/
theorem C3_witness :
    getRulesData w3Event (some sampleMetadata) =
      { appliedRuleTexts := [], originalRuleTexts := [] } :=
  C3_reserved_allowlist_rule_empty w3Event w3Rule (some sampleMetadata)
    rfl rfl rfl rfl rfl rfl

/-- C7: a one-element rule group is emitted without filter-name annotation; a
group with two or more elements annotates every truthy text with the resolved
filter name as "text (filterName)" and leaves the text bare when resolution
yields nothing truthy. -/
theorem C7_group_name_suffixing (md : Option (List FilterMetadata))
    (rules : List FilteringEventRuleData) :
    (∀ r, rules = [r] →
       addRuleGroup md rules { appliedRuleTexts := [], originalRuleTexts := [] } =
         { appliedRuleTexts := (truthyText r.appliedRuleText).toList,
           originalRuleTexts := (truthyText r.originalRuleText).toList }) ∧
    (1 < rules.length →
       addRuleGroup md rules { appliedRuleTexts := [], originalRuleTexts := [] } =
         { appliedRuleTexts := rules.filterMap fun r =>
             (truthyText r.appliedRuleText).map fun t =>
               annotate t (getFilterName r.filterId md),
           originalRuleTexts := rules.filterMap fun r =>
             (truthyText r.originalRuleText).map fun t =>
               annotate t (getFilterName r.filterId md) }) := by
  constructor
  · intro r h
    subst h
    have h1 : addRuleGroup md [r] { appliedRuleTexts := [], originalRuleTexts := [] }
        = addRule r none { appliedRuleTexts := [], originalRuleTexts := [] } := rfl
    rw [h1, addRule_none_eq]
    simp
  · intro h
    rw [addRuleGroup_eq, groupAppliedTexts_multi md rules h,
      groupOriginalTexts_multi md rules h]
    simp

/-- C7 witness: a two-element replace group annotates the text from a known
filter and leaves the text from an unknown filter bare; the same first rule as
a one-element group is emitted unannotated. -/
theorem C7_witness :
    addRuleGroup (some sampleMetadata) [w7Rule1, w7Rule2]
        { appliedRuleTexts := [], originalRuleTexts := [] } =
      { appliedRuleTexts :=
          ["||a.example^$replace=x (Tracking Protection)", "||b.example^$replace=y"],
        originalRuleTexts := ["||a.example^$replace-orig (Tracking Protection)"] } ∧
    addRuleGroup (some sampleMetadata) [w7Rule1]
        { appliedRuleTexts := [], originalRuleTexts := [] } =
      { appliedRuleTexts := ["||a.example^$replace=x"],
        originalRuleTexts := ["||a.example^$replace-orig"] } := by
  constructor
  · have h := (C7_group_name_suffixing (some sampleMetadata) [w7Rule1, w7Rule2]).2
      (by decide)
    rw [h]
    decide
  · have h := (C7_group_name_suffixing (some sampleMetadata) [w7Rule1]).1 w7Rule1 rfl
    rw [h]
    decide

lemma showPreviewButton_iff (e : FilteringLogEvent) :
    showPreviewButton e = true ↔
      ((∃ u, e.requestType = some u ∧ u ∈ previewableTypes) ∧
        truthyText e.element = none ∧ e.script = false ∧
        truthyText e.cookieName = none ∧ e.statusMode ≠ StatusMode.BLOCKED) := by
  rcases e with ⟨rr, rep, ste, ty, el, sc, ck, st⟩
  cases ty with
  | none => simp [showPreviewButton]
  | some u =>
      have hmem : previewableTypes.contains u = true ↔ u ∈ previewableTypes := by
        cases u <;> decide
      simp [showPreviewButton, hmem, Option.isNone_iff_eq_none,
        Bool.not_eq_true', beq_eq_false_iff_ne, and_assoc]

lemma renderControlButtons_none_eq (e : FilteringLogEvent) :
    ∃ base : List ButtonKind,
      ButtonKind.Preview ∉ base ∧
      (e.requestRule = none → base = [ButtonKind.Block]) ∧
      renderControlButtons AddedRuleState.None e =
        base ++ (if showPreviewButton e then [ButtonKind.Preview] else []) := by
  cases hr : e.requestRule with
  | none =>
      refine ⟨[ButtonKind.Block], by simp, fun _ => rfl, ?_⟩
      rcases e with ⟨rr, rep, ste, ty, el, sc, ck, st⟩
      simp only at hr
      subst hr
      simp [renderControlButtons]
  | some r =>
      by_cases h1 : r.filterId == UserFilterId
      · by_cases h2 : r.allowlistRule
        · refine ⟨[ButtonKind.Block,
            if r.isStealthModeRule then ButtonKind.Unblock
            else ButtonKind.RemoveUserFilter], ?_, by simp, ?_⟩
          · cases hst : r.isStealthModeRule <;> simp
          · simp [renderControlButtons, hr, h1, h2]
        · refine ⟨[if r.isStealthModeRule then ButtonKind.Unblock
            else ButtonKind.RemoveUserFilter], ?_, by simp, ?_⟩
          · cases hst : r.isStealthModeRule <;> simp
          · simp [renderControlButtons, hr, h1, h2]
      · by_cases h3 : r.filterId == AllowlistFilterId
        · refine ⟨[ButtonKind.RemoveAllowlist], by simp, by simp, ?_⟩
          simp [renderControlButtons, hr, h1, h3]
        · by_cases h4 : r.allowlistRule
          · refine ⟨[ButtonKind.Block], by simp, by simp, ?_⟩
            simp [renderControlButtons, hr, h1, h3, h4]
          · refine ⟨[ButtonKind.Unblock], by simp, by simp, ?_⟩
            simp [renderControlButtons, hr, h1, h3, h4]

lemma preview_mem_renderControlButtons (e : FilteringLogEvent) :
    ButtonKind.Preview ∈ renderControlButtons AddedRuleState.None e ↔
      showPreviewButton e = true := by
  obtain ⟨base, hnp, -, heq⟩ := renderControlButtons_none_eq e
  rw [heq]
  cases h : showPreviewButton e <;> simp [hnp]

/-- C4: when addedRuleState is Block the resolver returns exactly the single
RemoveAddedBlock button, and when it is Unblock exactly the single
RemoveAddedUnblock button, for every event and rule content; no Preview button
is appended in either case. -/
theorem C4_added_state_single_button (e : FilteringLogEvent) :
    renderControlButtons AddedRuleState.Block e = [ButtonKind.RemoveAddedBlock] ∧
    renderControlButtons AddedRuleState.Unblock e = [ButtonKind.RemoveAddedUnblock] :=
  ⟨rfl, rfl⟩

/-- C5: outside the added-rule states, a user-filter allowlist rule yields the
Block button together with RemoveUserFilter (or Unblock instead when the rule
is a stealth-mode rule), plus Preview exactly when preview-eligible. -/
theorem C5_user_filter_allowlist_buttons (e : FilteringLogEvent)
    (r : FilteringEventRuleData) (s : AddedRuleState)
    (hs1 : s ≠ AddedRuleState.Block) (hs2 : s ≠ AddedRuleState.Unblock)
    (hr : e.requestRule = some r) (hf : r.filterId = UserFilterId)
    (ha : r.allowlistRule = true) :
    (r.isStealthModeRule = false →
       renderControlButtons s e =
         [ButtonKind.Block, ButtonKind.RemoveUserFilter]
           ++ (if showPreviewButton e then [ButtonKind.Preview] else [])) ∧
    (r.isStealthModeRule = true →
       renderControlButtons s e =
         [ButtonKind.Block, ButtonKind.Unblock]
           ++ (if showPreviewButton e then [ButtonKind.Preview] else [])) := by
  have hsn : s = AddedRuleState.None := by
    cases s
    · rfl
    · exact absurd rfl hs1
    · exact absurd rfl hs2
  subst hsn
  constructor <;> intro hst <;>
    simp [renderControlButtons, hr, hf, ha, hst]

/-- C5 witness: concrete user-filter allowlist events, without and with the
stealth-mode flag, on a preview-eligible event. -/
theorem C5_witness :
    renderControlButtons AddedRuleState.None w5Event =
      [ButtonKind.Block, ButtonKind.RemoveUserFilter, ButtonKind.Preview] ∧
    renderControlButtons AddedRuleState.None w5StealthEvent =
      [ButtonKind.Block, ButtonKind.Unblock, ButtonKind.Preview] := by
  constructor
  · have h := (C5_user_filter_allowlist_buttons w5Event w5Rule AddedRuleState.None
      (by decide) (by decide) rfl rfl rfl).1 rfl
    rw [h]
    decide
  · have h := (C5_user_filter_allowlist_buttons w5StealthEvent w5StealthRule
      AddedRuleState.None (by decide) (by decide) rfl rfl rfl).2 rfl
    rw [h]
    decide

/-- C6: an event with no request rule, a previewable request type, no
element/script/cookie markers and a non-blocked derived status resolves to
exactly Block followed by Preview; and outside the added-rule states the
Preview button occurs in the result exactly when those eligibility conditions
hold. -/
theorem C6_no_rule_preview (e : FilteringLogEvent) (t : RequestType)
    (hr : e.requestRule = none) (ht : e.requestType = some t)
    (htp : t ∈ previewableTypes)
    (hel : truthyText e.element = none) (hsc : e.script = false)
    (hck : truthyText e.cookieName = none)
    (hst : e.statusMode ≠ StatusMode.BLOCKED) :
    renderControlButtons AddedRuleState.None e =
      [ButtonKind.Block, ButtonKind.Preview] ∧
    ∀ (e2 : FilteringLogEvent) (s2 : AddedRuleState),
      s2 ≠ AddedRuleState.Block → s2 ≠ AddedRuleState.Unblock →
      (ButtonKind.Preview ∈ renderControlButtons s2 e2 ↔
        ((∃ u, e2.requestType = some u ∧ u ∈ previewableTypes) ∧
          truthyText e2.element = none ∧ e2.script = false ∧
          truthyText e2.cookieName = none ∧
          e2.statusMode ≠ StatusMode.BLOCKED)) := by
  constructor
  · obtain ⟨base, hnp, hb, heq⟩ := renderControlButtons_none_eq e
    have hsp : showPreviewButton e = true := by
      rw [showPreviewButton_iff]
      exact ⟨⟨t, ht, htp⟩, hel, hsc, hck, hst⟩
    rw [heq, hb hr, hsp]
    rfl
  · intro e2 s2 hs1 hs2
    have hsn : s2 = AddedRuleState.None := by
      cases s2
      · rfl
      · exact absurd rfl hs1
      · exact absurd rfl hs2
    subst hsn
    rw [preview_mem_renderControlButtons, showPreviewButton_iff]

/-- C6 witness: a bare image event resolves to Block then Preview, and a
blocked-status event never shows Preview. -/
theorem C6_witness :
    renderControlButtons AddedRuleState.None w6Event =
      [ButtonKind.Block, ButtonKind.Preview] ∧
    ¬ ButtonKind.Preview ∈ renderControlButtons AddedRuleState.None w2Event := by
  have h := C6_no_rule_preview w6Event RequestType.Image rfl rfl (by decide)
    rfl rfl rfl (by decide)
  refine ⟨h.1, ?_⟩
  intro hmem
  have h2 := (h.2 w2Event AddedRuleState.None (by decide) (by decide)).mp hmem
  exact h2.2.2.2.2 rfl

/-- C8: the extractor and resolver are total functions with defined defaults: a
rule descriptor without a truthy applied (resp. original) text contributes
nothing to the corresponding output sequence, and with no request rule and no
added-rule state the first resolved button is Block. -/
theorem C8_totality_and_defaults :
    (∀ (rule : FilteringEventRuleData) (filterName : Option String)
        (result : RulesData),
       truthyText rule.appliedRuleText = none →
       (addRule rule filterName result).appliedRuleTexts = result.appliedRuleTexts) ∧
    (∀ (rule : FilteringEventRuleData) (filterName : Option String)
        (result : RulesData),
       truthyText rule.originalRuleText = none →
       (addRule rule filterName result).originalRuleTexts = result.originalRuleTexts) ∧
    (∀ e : FilteringLogEvent, e.requestRule = none →
       (renderControlButtons AddedRuleState.None e).head? = some ButtonKind.Block) := by
  refine ⟨?_, ?_, ?_⟩
  · intro rule filterName result h
    rw [addRule_eq]
    simp [h]
  · intro rule filterName result h
    rw [addRule_eq]
    simp [h]
  · intro e he
    obtain ⟨base, -, hb, heq⟩ := renderControlButtons_none_eq e
    rw [heq, hb he]
    rfl

/-- C8 witness: a text-less rule descriptor contributes nothing, and an event
with no rule resolves to Block first. -/
theorem C8_witness :
    (addRule w8Rule none
        { appliedRuleTexts := [], originalRuleTexts := [] }).appliedRuleTexts = [] ∧
    (renderControlButtons AddedRuleState.None w8Event).head?
        = some ButtonKind.Block := by
  constructor
  · exact C8_totality_and_defaults.1 w8Rule none
      { appliedRuleTexts := [], originalRuleTexts := [] } rfl
  · exact C8_totality_and_defaults.2.2 w8Event rfl

/-- C9: absent a promo notification, the badge is empty whenever the tab is
allowlisted, filtering is globally disabled, page stats are disabled, or the
blocked count is 0; it is the single character U+221E when the effective count
exceeds 99; otherwise it is the decimal string of the count; the badge-setting
browser calls are made exactly when the badge text is non-empty. -/
theorem C9_badge_text (documentAllowlisted applicationFilteringDisabled
    disableShowPageStats filterLimitsExceeded : Bool) (totalBlockedTab : Nat) :
    (documentAllowlisted = true ∨ applicationFilteringDisabled = true ∨
        disableShowPageStats = true ∨ totalBlockedTab = 0 →
      (updateTabIcon documentAllowlisted applicationFilteringDisabled
          totalBlockedTab disableShowPageStats filterLimitsExceeded none).badge
        = "") ∧
    (documentAllowlisted = false → applicationFilteringDisabled = false →
        disableShowPageStats = false → 99 < totalBlockedTab →
      (updateTabIcon documentAllowlisted applicationFilteringDisabled
          totalBlockedTab disableShowPageStats filterLimitsExceeded none).badge
        = "∞") ∧
    (documentAllowlisted = false → applicationFilteringDisabled = false →
        disableShowPageStats = false → 1 ≤ totalBlockedTab →
        totalBlockedTab ≤ 99 →
      (updateTabIcon documentAllowlisted applicationFilteringDisabled
          totalBlockedTab disableShowPageStats filterLimitsExceeded none).badge
        = toString totalBlockedTab) ∧
    ((updateTabIcon documentAllowlisted applicationFilteringDisabled
        totalBlockedTab disableShowPageStats filterLimitsExceeded
        none).setBadgeTextCalled
      = !(updateTabIcon documentAllowlisted applicationFilteringDisabled
          totalBlockedTab disableShowPageStats filterLimitsExceeded
          none).badge.isEmpty) ∧
    ((updateTabIcon documentAllowlisted applicationFilteringDisabled
        totalBlockedTab disableShowPageStats filterLimitsExceeded
        none).setBadgeBackgroundColorCalled
      = !(updateTabIcon documentAllowlisted applicationFilteringDisabled
          totalBlockedTab disableShowPageStats filterLimitsExceeded
          none).badge.isEmpty) := by
  refine ⟨?_, ?_, ?_, rfl, rfl⟩
  · intro h
    rcases h with h | h | h | h <;> simp [updateTabIcon, h]
  · intro h1 h2 h3 h4
    have h0 : totalBlockedTab ≠ 0 := by omega
    simp [updateTabIcon, h1, h2, h3, h0, h4]
  · intro h1 h2 h3 h4 h5
    have h0 : totalBlockedTab ≠ 0 := by omega
    have h99 : ¬ 99 < totalBlockedTab := by omega
    simp [updateTabIcon, h1, h2, h3, h0, h99]

/-- C9 witness: the badge evaluated for an allowlisted tab, a large count, and
a mid-range count, and the call flags on an empty badge. -/
theorem C9_witness :
    (updateTabIcon true false 150 false false none).badge = "" ∧
    (updateTabIcon false false 150 false false none).badge = "∞" ∧
    (updateTabIcon false false 42 false false none).badge = "42" ∧
    (updateTabIcon true false 150 false false none).setBadgeTextCalled = false := by
  refine ⟨?_, ?_, ?_, ?_⟩
  · exact (C9_badge_text true false false false 150).1 (Or.inl rfl)
  · exact (C9_badge_text false false false false 150).2.1 rfl rfl rfl (by decide)
  · have h := (C9_badge_text false false false false 42).2.2.1 rfl rfl rfl
      (by decide) (by decide)
    rw [h]
    decide
  · have h := (C9_badge_text true false false false 150).2.2.2.1
    rw [h, (C9_badge_text true false false false 150).1 (Or.inl rfl)]
    decide

/-- C10: getRuleFilterName prefers the request rule whenever one is present
(even with group arrays also present); otherwise it resolves from a
one-element replaceRules array, failing that from a one-element
stealthAllowlistRules array; in every other case it returns null, and a
non-null result implies one of those three shapes. -/
theorem C10_filter_name_precedence (e : FilteringLogEvent)
    (md : Option (List FilterMetadata)) :
    (∀ r, e.requestRule = some r →
       getRuleFilterName e md = getFilterName r.filterId md) ∧
    (e.requestRule = none → ∀ r, e.replaceRules = some [r] →
       getRuleFilterName e md = getFilterName r.filterId md) ∧
    (e.requestRule = none →
       (∀ l, e.replaceRules = some l → l.length ≠ 1) →
       ∀ r, e.stealthAllowlistRules = some [r] →
       getRuleFilterName e md = getFilterName r.filterId md) ∧
    (e.requestRule = none →
       (∀ l, e.replaceRules = some l → l.length ≠ 1) →
       (∀ l, e.stealthAllowlistRules = some l → l.length ≠ 1) →
       getRuleFilterName e md = none) ∧
    (getRuleFilterName e md ≠ none →
       e.requestRule ≠ none ∨ (∃ r, e.replaceRules = some [r]) ∨
       (∃ r, e.stealthAllowlistRules = some [r])) := by
  rcases e with ⟨rr, rep, ste, ty, el, sc, ck, st⟩
  refine ⟨?_, ?_, ?_, ?_, ?_⟩
  · intro r h
    simp only at h
    subst h
    rfl
  · intro h1 r h2
    simp only at h1 h2
    subst h1
    subst h2
    rfl
  · intro h1 hrep r h2
    simp only at h1 h2
    subst h1
    subst h2
    match rep with
    | none => rfl
    | some [] => rfl
    | some [x] => exact absurd rfl (hrep [x] rfl)
    | some (a :: b :: tl) => rfl
  · intro h1 hrep hste
    simp only at h1
    subst h1
    match rep, ste with
    | none, none => rfl
    | none, some [] => rfl
    | none, some [y] => exact absurd rfl (hste [y] rfl)
    | none, some (a :: b :: tl) => rfl
    | some [], none => rfl
    | some [], some [] => rfl
    | some [], some [y] => exact absurd rfl (hste [y] rfl)
    | some [], some (a :: b :: tl) => rfl
    | some [x], _ => exact absurd rfl (hrep [x] rfl)
    | some (a :: b :: tl), none => rfl
    | some (a :: b :: tl), some [] => rfl
    | some (a :: b :: tl), some [y] => exact absurd rfl (hste [y] rfl)
    | some (a :: b :: tl), some (c :: d :: tl2) => rfl
  · intro h
    match rr with
    | some r => exact Or.inl (by simp)
    | none =>
        match hrep : rep with
        | some [x] => exact Or.inr (Or.inl ⟨x, rfl⟩)
        | none =>
            match hste : ste with
            | some [y] => exact Or.inr (Or.inr ⟨y, rfl⟩)
            | none => exact absurd rfl h
            | some [] => exact absurd rfl h
            | some (c :: d :: tl2) => exact absurd rfl h
        | some [] =>
            match hste : ste with
            | some [y] => exact Or.inr (Or.inr ⟨y, rfl⟩)
            | none => exact absurd rfl h
            | some [] => exact absurd rfl h
            | some (c :: d :: tl2) => exact absurd rfl h
        | some (a :: b :: tl) =>
            match hste : ste with
            | some [y] => exact Or.inr (Or.inr ⟨y, rfl⟩)
            | none => exact absurd rfl h
            | some [] => exact absurd rfl h
            | some (c :: d :: tl2) => exact absurd rfl h

/-- C10 witness: a one-element replaceRules group with no request rule resolves
the filter name from the metadata. -/
theorem C10_witness :
    getRuleFilterName w10Event (some sampleMetadata)
      = some "Tracking Protection" := by
  have h := (C10_filter_name_precedence w10Event (some sampleMetadata)).2.1
    rfl w7Rule1 rfl
  rw [h]
  decide

end AdguardSpec
